import Mathlib

/-!
Shallow embedding of the wcag-contrast-palette color-scale generator.

The numeric pipeline (contrast model, reverse WCAG contrast solver, Oklab /
Okhsl lightness mapping) is embedded over the real numbers, mirroring
`src/utils/reverseWcagContrast.ts` and `src/utils/colorConversions.ts`.
The per-step hue and chroma curves and the option validation of
`src/generateColorScale.ts` involve only rational arithmetic and are embedded
over `ℚ`, keeping them executable and decidable.  The external conversion from
an Okhsl triple to a device sRGB triple (the `colorjs.io` library) is treated
as an opaque function parameter, exactly as the specification treats it
(an external collaborator used as a black box).

JavaScript exceptions are modelled as `Option`/`Except` failure values:
a function that can `throw` returns `none` / `.error` on the throwing paths.
-/

namespace WcagPalette

/-- From `src/utils/reverseWcagContrast.ts`, `scaleToContrast`:
the scale value is normalized from the 0-1000 range to 0-1 and mapped through
`Math.exp (3.04 * x)`, giving the WCAG contrast target of the step relative
to scale position 0. -/
noncomputable def scaleToContrast (scaleValue : ℝ) : ℝ :=
  let normalizedValue := scaleValue / 1000
  Real.exp (3.04 * normalizedValue)

/-- From `src/utils/reverseWcagContrast.ts`, `reverseWCAGContrast`:
given a target contrast and a known luminance `y`, solve for the other
luminance.  The source returns `false` when `y` is outside `[0, 1]` or when
`contrast` is outside `[1, 21]` (modelled as `none`); otherwise it picks the
darker-foreground formula when `y > 0.18` and the lighter-foreground formula
otherwise, and clamps the result into `[0, 1]` with
`Math.max(0, Math.min(1, output))`. -/
noncomputable def reverseWCAGContrast (contrast : ℝ) (y : ℝ) : Option ℝ :=
  if ¬(0 ≤ y ∧ y ≤ 1) then none
  else if ¬(1 ≤ contrast ∧ contrast ≤ 21) then none
  else
    let output : ℝ :=
      if 0.18 < y then (y + 0.05) / contrast - 0.05
      else contrast * (y + 0.05) - 0.05
    some (max 0 (min 1 output))

/-- From `src/generateColorScale.ts`, `computeHue`: the Bezold-Brücke hue
shift.  Throws (modelled as `none`) when the normalized step is outside
`[0, 1]` or `baseHue` is outside `[0, 360]`; returns `baseHue` unchanged when
`baseHue === 0` or the shift is disabled, and otherwise
`baseHue + 5 * (1 - normalizedStep)`. -/
def computeHue (step baseHue : ℚ) (enableBezoldBruckeShift : Bool) : Option ℚ :=
  let normalizedStep := step / 1000
  if normalizedStep < 0 ∨ 1 < normalizedStep then none
  else if baseHue < 0 ∨ 360 < baseHue then none
  else if baseHue = 0 ∨ enableBezoldBruckeShift = false then some baseHue
  else some (baseHue + 5 * (1 - normalizedStep))

/-- From `src/generateColorScale.ts`, `computeChroma`: the parabolic chroma
curve `-4*Δ*t² + 4*Δ*t + minChroma` in `t = step/1000`, with
`Δ = maxChroma - minChroma`.  Throws (modelled as `none`) when the
normalized step is outside `[0, 1]`, when a chroma bound is outside `[0, 1]`,
or when `minChroma > maxChroma`. -/
def computeChroma (step minChroma maxChroma : ℚ) : Option ℚ :=
  let normalizedStep := step / 1000
  if normalizedStep < 0 ∨ 1 < normalizedStep then none
  else if minChroma < 0 ∨ 1 < minChroma ∨ maxChroma < 0 ∨ 1 < maxChroma then none
  else if maxChroma < minChroma then none
  else
    let chromaDifference := maxChroma - minChroma
    some (-4 * chromaDifference * normalizedStep ^ 2
      + 4 * chromaDifference * normalizedStep + minChroma)

/-- Cube root on the reals.  In `src/utils/colorConversions.ts` the source
uses `Math.cbrt`, applied only to cone responses that were just clamped with
`Math.max(0, ·)`; on nonnegative arguments `Math.cbrt x = x ^ (1/3)`, which is
the real power used here. -/
noncomputable def cbrt (x : ℝ) : ℝ :=
  x ^ ((1 : ℝ) / 3)

/-- From `src/utils/colorConversions.ts`, `toe`: the Okhsl toe correction
`0.5 * (k₃L - k₁ + sqrt((k₃L - k₁)² + 4k₂k₃L))` with `k₁ = 0.206`,
`k₂ = 0.03`, `k₃ = (1 + k₁)/(1 + k₂)`. -/
noncomputable def toe (L : ℝ) : ℝ :=
  let k_1 : ℝ := 0.206
  let k_2 : ℝ := 0.03
  let k_3 : ℝ := (1 + k_1) / (1 + k_2)
  let k3L_m_k1 := k_3 * L - k_1
  0.5 * (k3L_m_k1 + Real.sqrt (k3L_m_k1 * k3L_m_k1 + 4 * k_2 * k_3 * L))

/-- From `src/utils/colorConversions.ts`, `yToOklabLightness`: expand a D65
grayscale luminance to XYZ with the D65 chromaticity coordinates
(x = 0.3127, y = 0.329), map through the M1 matrix to LMS cone responses,
clamp them to be nonnegative, take cube roots, and combine with the first
row of the M2 matrix to obtain the Oklab lightness L. -/
noncomputable def yToOklabLightness (inputY : ℝ) : ℝ :=
  let x : ℝ := 0.3127
  let y : ℝ := 0.329
  let X_factor := x / y
  let Z_factor := (1 - x - y) / y
  let X := X_factor * inputY
  let Y := inputY
  let Z := Z_factor * inputY
  let l := 0.8189330101 * X + 0.3618667424 * Y - 0.1288597137 * Z
  let m := 0.0329845436 * X + 0.9293118715 * Y + 0.0361456387 * Z
  let s := 0.0482003018 * X + 0.2643662691 * Y + 0.633851707 * Z
  let lClamped := max 0 l
  let mClamped := max 0 m
  let sClamped := max 0 s
  let lRoot := cbrt lClamped
  let mRoot := cbrt mClamped
  let sRoot := cbrt sClamped
  0.2104542553 * lRoot + 0.793617785 * mRoot - 0.0040720468 * sRoot

/-- From `src/utils/colorConversions.ts`, `yToOkhslLightness`: the toe
correction applied to the Oklab lightness of the luminance. -/
noncomputable def yToOkhslLightness (inputY : ℝ) : ℝ :=
  toe (yToOklabLightness inputY)

/-- From `src/generateColorScale.ts`, `computeLightness`: the WCAG contrast
target of the step is inverted against the fixed reference luminance 1
(the source calls `reverseWCAGContrast(wcagContrast)` with the default
`y = 1`); a `false` answer throws (modelled as `none`), otherwise the target
luminance is mapped to an Okhsl lightness. -/
noncomputable def computeLightness (step : ℚ) : Option ℝ :=
  let wcagContrast := scaleToContrast (step : ℝ)
  match reverseWCAGContrast wcagContrast 1 with
  | none => none
  | some targetLuminance => some (yToOkhslLightness targetLuminance)

/-- Options record of `generateColorScale`
(`GenerateColorScaleOptions` in `src/generateColorScale.ts`). -/
structure GenerateColorScaleOptions where
  baseHue : ℚ
  minChroma : ℚ
  maxChroma : ℚ
  steps : List ℚ
  enableBezoldBruckeShift : Bool := true

/-- The per-step body of the `steps.reduce` in `generateColorScale`:
hue, chroma and lightness for the step, combined by the external
`okhslToSrgb` conversion (an opaque collaborator, passed as a function).
Any failure of the three per-step computations aborts the step
(in the source, the corresponding function throws). -/
noncomputable def stepColor (okhslToSrgb : ℝ × ℝ × ℝ → ℝ × ℝ × ℝ)
    (step baseHue minChroma maxChroma : ℚ) (enableBezoldBruckeShift : Bool) :
    Option (ℝ × ℝ × ℝ) :=
  match computeHue step baseHue enableBezoldBruckeShift,
      computeChroma step minChroma maxChroma, computeLightness step with
  | some h, some s, some l => some (okhslToSrgb ((h : ℝ), (s : ℝ), l))
  | _, _, _ => none

/-- The `steps.reduce` loop of `generateColorScale`: each step is mapped to
its color in order; the first per-step failure aborts the whole call with an
error (in the source, the throw propagates out of the `reduce`), so no
partial scale is ever produced. -/
noncomputable def buildScale (stepFn : ℚ → Option (ℝ × ℝ × ℝ)) :
    List ℚ → Except String (List (ℚ × (ℝ × ℝ × ℝ)))
  | [] => .ok []
  | step :: rest =>
    match stepFn step with
    | none => .error "Problem calculating the target luminance for step"
    | some c =>
      match buildScale stepFn rest with
      | .ok scale => .ok ((step, c) :: scale)
      | .error e => .error e

/-- From `src/generateColorScale.ts`, `generateColorScale`: validate the
options (base hue range, chroma ranges, chroma ordering, every step an
integer in `[0, 1000]`) and only then run the per-step pipeline over the
requested steps.  The external Okhsl-to-sRGB conversion is a parameter. -/
noncomputable def generateColorScale (okhslToSrgb : ℝ × ℝ × ℝ → ℝ × ℝ × ℝ)
    (options : GenerateColorScaleOptions) :
    Except String (List (ℚ × (ℝ × ℝ × ℝ))) :=
  if options.baseHue < 0 ∨ 360 < options.baseHue then
    .error "baseHue must be a number between 0 and 360"
  else if options.minChroma < 0 ∨ 1 < options.minChroma
      ∨ options.maxChroma < 0 ∨ 1 < options.maxChroma then
    .error "Chroma values must be numbers between 0 and 1"
  else if options.maxChroma < options.minChroma then
    .error "minChroma must be less than or equal to maxChroma"
  else if options.steps.any fun step =>
      decide (step < 0) || decide (1000 < step) || decide (step.den ≠ 1) then
    .error "All steps must be integers between 0 and 1000"
  else
    buildScale
      (fun step => stepColor okhslToSrgb step options.baseHue
        options.minChroma options.maxChroma options.enableBezoldBruckeShift)
      options.steps

/-- The luminance that `computeLightness` targets for a scale step, before
the perceptual-lightness mapping: the reverse WCAG contrast solution at the
step's target contrast against the fixed reference luminance 1. -/
noncomputable def targetLuminance (step : ℚ) : Option ℝ :=
  reverseWCAGContrast (scaleToContrast (step : ℝ)) 1

/-- The W3C WCAG contrast ratio of two relative luminances,
`(lighter + 0.05) / (darker + 0.05)` — the reference metric the
specification states its accessibility guarantee in (`reverseWCAGContrast`
is its inverse in the source). -/
noncomputable def wcagContrastValue (y1 y2 : ℝ) : ℝ :=
  (max y1 y2 + 0.05) / (min y1 y2 + 0.05)

/-- C5: `scaleToContrast step` is `exp (3.04 * step / 1000)`, it is
monotonically increasing in the step, and `scaleToContrast 0 = 1`. -/
theorem C5_scaleToContrast_exponential (a b : ℝ) (hab : a < b) :
    scaleToContrast a = Real.exp (3.04 * a / 1000)
    ∧ scaleToContrast a < scaleToContrast b
    ∧ scaleToContrast 0 = 1 := by
  refine ⟨by rw [scaleToContrast]; ring_nf, ?_, by simp [scaleToContrast]⟩
  unfold scaleToContrast
  exact Real.exp_lt_exp.mpr (by linarith)

/-- Witness for C5 at the concrete pair `a = 0`, `b = 1000`. -/
theorem C5_scaleToContrast_exponential_witness :
    scaleToContrast 0 = Real.exp (3.04 * 0 / 1000)
    ∧ scaleToContrast 0 < scaleToContrast 1000
    ∧ scaleToContrast 0 = 1 :=
  C5_scaleToContrast_exponential 0 1000 (by norm_num)

/-- C2: on inputs satisfying both preconditions (`contrast ∈ [1, 21]` and
`y ∈ [0, 1]`), `reverseWCAGContrast` returns `(y + 0.05)/contrast - 0.05`
when `y > 0.18` and `contrast*(y + 0.05) - 0.05` when `y ≤ 0.18`, clamped
into `[0, 1]`. -/
theorem C2_reverseWCAGContrast_formula (contrast y : ℝ)
    (h1 : 1 ≤ contrast) (h2 : contrast ≤ 21) (h3 : 0 ≤ y) (h4 : y ≤ 1) :
    reverseWCAGContrast contrast y =
      some (max 0 (min 1 (if 0.18 < y then (y + 0.05) / contrast - 0.05
        else contrast * (y + 0.05) - 0.05))) := by
  simp [reverseWCAGContrast, h1, h2, h3, h4]

/-- Witness for C2 at the concrete input `contrast = 4.5`, `y = 1`. -/
theorem C2_reverseWCAGContrast_formula_witness :
    reverseWCAGContrast 4.5 1 =
      some (max 0 (min 1 (if (0.18 : ℝ) < 1 then ((1 : ℝ) + 0.05) / 4.5 - 0.05
        else 4.5 * ((1 : ℝ) + 0.05) - 0.05))) :=
  C2_reverseWCAGContrast_formula 4.5 1 (by norm_num) (by norm_num)
    (by norm_num) (by norm_num)

/-- C3: `reverseWCAGContrast` fails exactly when a precondition is violated:
the result is `none` if and only if `contrast` is outside `[1, 21]` or `y`
is outside `[0, 1]`; inside both ranges it returns a numeric luminance. -/
theorem C3_reverseWCAGContrast_failure_iff (contrast y : ℝ) :
    reverseWCAGContrast contrast y = none ↔
      ¬(1 ≤ contrast ∧ contrast ≤ 21) ∨ ¬(0 ≤ y ∧ y ≤ 1) := by
  simp only [reverseWCAGContrast]
  by_cases hy : 0 ≤ y ∧ y ≤ 1
  · by_cases hc : 1 ≤ contrast ∧ contrast ≤ 21
    · rw [if_neg (not_not_intro hy), if_neg (not_not_intro hc)]
      simp [hy, hc]
    · rw [if_neg (not_not_intro hy), if_pos hc]
      simp [hc]
  · rw [if_pos hy]
    simp [hy]

/-- Unfolding of `computeChroma` under the validated preconditions: the
guards pass and the parabola value is returned. -/
theorem computeChroma_eq (step minChroma maxChroma : ℚ)
    (h0 : 0 ≤ step) (h1 : step ≤ 1000)
    (h2 : 0 ≤ minChroma) (h3 : minChroma ≤ maxChroma) (h4 : maxChroma ≤ 1) :
    computeChroma step minChroma maxChroma
      = some (-4 * (maxChroma - minChroma) * (step / 1000) ^ 2
          + 4 * (maxChroma - minChroma) * (step / 1000) + minChroma) := by
  have hn1 : ¬(step / 1000 < 0 ∨ 1 < step / 1000) := by
    push_neg
    constructor <;> [positivity; linarith]
  have hn2 : ¬(minChroma < 0 ∨ 1 < minChroma ∨ maxChroma < 0 ∨ 1 < maxChroma) := by
    push_neg
    exact ⟨h2, by linarith, by linarith, h4⟩
  have hn3 : ¬(maxChroma < minChroma) := not_lt.mpr h3
  simp only [computeChroma, if_neg hn1, if_neg hn2, if_neg hn3]

/-- Unfolding of `computeHue` under the validated preconditions: the guards
pass and the branch on `baseHue = 0` / disabled shift selects the value. -/
theorem computeHue_eq (step baseHue : ℚ) (shift : Bool)
    (h0 : 0 ≤ step) (h1 : step ≤ 1000) (h2 : 0 ≤ baseHue) (h3 : baseHue ≤ 360) :
    computeHue step baseHue shift
      = some (if baseHue = 0 ∨ shift = false then baseHue
          else baseHue + 5 * (1 - step / 1000)) := by
  have hn1 : ¬(step / 1000 < 0 ∨ 1 < step / 1000) := by
    push_neg
    constructor <;> [positivity; linarith]
  have hn2 : ¬(baseHue < 0 ∨ 360 < baseHue) := by
    push_neg
    exact ⟨h2, h3⟩
  simp only [computeHue, if_neg hn1, if_neg hn2]
  by_cases hb : baseHue = 0 ∨ shift = false
  · rw [if_pos hb, if_pos hb]
  · rw [if_neg hb, if_neg hb]

/-- C7: under the validated preconditions, `computeChroma` is the parabola
`-4Δt² + 4Δt + minChroma` in `t = step/1000`; its value is `minChroma` at
steps 0 and 1000 and `maxChroma` at step 500, the parabola value never
exceeds `maxChroma` on `[0, 1000]`, and the curve is symmetric around
step 500: `computeChroma step = computeChroma (1000 - step)`. -/
theorem C7_chroma_parabola (step minChroma maxChroma : ℚ)
    (h0 : 0 ≤ step) (h1 : step ≤ 1000)
    (h2 : 0 ≤ minChroma) (h3 : minChroma ≤ maxChroma) (h4 : maxChroma ≤ 1) :
    computeChroma step minChroma maxChroma
      = some (-4 * (maxChroma - minChroma) * (step / 1000) ^ 2
          + 4 * (maxChroma - minChroma) * (step / 1000) + minChroma)
    ∧ computeChroma 0 minChroma maxChroma = some minChroma
    ∧ computeChroma 1000 minChroma maxChroma = some minChroma
    ∧ computeChroma 500 minChroma maxChroma = some maxChroma
    ∧ -4 * (maxChroma - minChroma) * (step / 1000) ^ 2
        + 4 * (maxChroma - minChroma) * (step / 1000) + minChroma ≤ maxChroma
    ∧ computeChroma step minChroma maxChroma
        = computeChroma (1000 - step) minChroma maxChroma := by
  refine ⟨computeChroma_eq step minChroma maxChroma h0 h1 h2 h3 h4, ?_, ?_, ?_, ?_, ?_⟩
  · rw [computeChroma_eq 0 minChroma maxChroma le_rfl (by norm_num) h2 h3 h4]
    norm_num
  · rw [computeChroma_eq 1000 minChroma maxChroma (by norm_num) le_rfl h2 h3 h4]
    congr 1
    ring
  · rw [computeChroma_eq 500 minChroma maxChroma (by norm_num) (by norm_num) h2 h3 h4]
    congr 1
    ring
  · nlinarith [sq_nonneg (2 * (step / 1000) - 1), sub_nonneg.mpr h3]
  · rw [computeChroma_eq step minChroma maxChroma h0 h1 h2 h3 h4,
      computeChroma_eq (1000 - step) minChroma maxChroma (by linarith) (by linarith) h2 h3 h4]
    congr 1
    ring

/-- Witness for C7 at the concrete input `step = 250`, `minChroma = 1/5`,
`maxChroma = 4/5`. -/
theorem C7_chroma_parabola_witness :
    computeChroma 250 (1/5) (4/5)
      = some (-4 * ((4/5 : ℚ) - 1/5) * ((250 : ℚ) / 1000) ^ 2
          + 4 * ((4/5 : ℚ) - 1/5) * ((250 : ℚ) / 1000) + 1/5)
    ∧ computeChroma 0 (1/5) (4/5) = some (1/5)
    ∧ computeChroma 1000 (1/5) (4/5) = some (1/5)
    ∧ computeChroma 500 (1/5) (4/5) = some (4/5)
    ∧ -4 * ((4/5 : ℚ) - 1/5) * ((250 : ℚ) / 1000) ^ 2
        + 4 * ((4/5 : ℚ) - 1/5) * ((250 : ℚ) / 1000) + 1/5 ≤ 4/5
    ∧ computeChroma 250 (1/5) (4/5) = computeChroma (1000 - 250) (1/5) (4/5) :=
  C7_chroma_parabola 250 (1/5) (4/5) (by norm_num) (by norm_num) (by norm_num)
    (by norm_num) (by norm_num)

/-- C8 counterexample: at the valid inputs `step = 0`, `baseHue = 360` with
the Bezold-Brücke shift enabled, `computeHue` returns 365, which lies
outside the claimed range `[0, 360]`. -/
theorem C8_hue_range_counterexample :
    computeHue 0 360 true = some 365 ∧ ¬((365 : ℚ) ≤ 360) := by
  constructor
  · rw [computeHue_eq 0 360 true le_rfl (by norm_num) (by norm_num) le_rfl]
    norm_num
  · norm_num

/-- C8 (amended): for `step ∈ [0, 1000]` and `baseHue ∈ [0, 360]`,
`computeHue` returns `baseHue` unchanged when the shift is disabled or
`baseHue = 0`, and `baseHue + 5 * (1 - step/1000)` otherwise; the returned
hue lies in `[0, 365]` (not `[0, 360]`: the shift can push a hue near 360
up to 5 degrees past it). -/
theorem C8_hue_shift_amended (step baseHue : ℚ) (shift : Bool)
    (h0 : 0 ≤ step) (h1 : step ≤ 1000) (h2 : 0 ≤ baseHue) (h3 : baseHue ≤ 360) :
    computeHue step baseHue shift
      = some (if baseHue = 0 ∨ shift = false then baseHue
          else baseHue + 5 * (1 - step / 1000))
    ∧ 0 ≤ (if baseHue = 0 ∨ shift = false then baseHue
          else baseHue + 5 * (1 - step / 1000))
    ∧ (if baseHue = 0 ∨ shift = false then baseHue
          else baseHue + 5 * (1 - step / 1000)) ≤ 365 := by
  refine ⟨computeHue_eq step baseHue shift h0 h1 h2 h3, ?_, ?_⟩
  · split_ifs
    · exact h2
    · have : step / 1000 ≤ 1 := by linarith
      linarith
  · split_ifs
    · linarith
    · have : 0 ≤ step / 1000 := by positivity
      linarith

/-- Witness for C8 (amended) at the concrete input `step = 0`,
`baseHue = 360`, shift enabled. -/
theorem C8_hue_shift_amended_witness :
    computeHue 0 360 true
      = some (if (360 : ℚ) = 0 ∨ true = false then (360 : ℚ)
          else 360 + 5 * (1 - 0 / 1000))
    ∧ 0 ≤ (if (360 : ℚ) = 0 ∨ true = false then (360 : ℚ)
          else 360 + 5 * (1 - 0 / 1000))
    ∧ (if (360 : ℚ) = 0 ∨ true = false then (360 : ℚ)
          else 360 + 5 * (1 - 0 / 1000)) ≤ 365 :=
  C8_hue_shift_amended 0 360 true le_rfl (by norm_num) (by norm_num) le_rfl

/-- Bracketing of `exp 3` by the ninth-decimal bounds on `e`. -/
theorem exp_three_bounds :
    2.7182818283 ^ 3 < Real.exp 3 ∧ Real.exp 3 < 2.7182818286 ^ 3 := by
  have h3 : Real.exp 3 = Real.exp 1 ^ 3 := by
    rw [Real.exp_one_pow]
    norm_num
  constructor
  · rw [h3]
    exact pow_lt_pow_left₀ Real.exp_one_gt_d9 (by norm_num) (by norm_num)
  · rw [h3]
    exact pow_lt_pow_left₀ Real.exp_one_lt_d9 (Real.exp_pos 1).le (by norm_num)

/-- Upper bound `exp 3.04 < 21`: the largest contrast target of the scale
stays strictly inside the WCAG contrast range. -/
theorem exp_304_lt_21 : Real.exp 3.04 < 21 := by
  have hup : Real.exp 0.04 ≤ 1 / 0.96 := by
    have h := Real.add_one_le_exp (-0.04)
    rw [Real.exp_neg] at h
    have hp : (0 : ℝ) < Real.exp 0.04 := Real.exp_pos _
    have h2 := mul_le_mul_of_nonneg_left h hp.le
    rw [mul_inv_cancel₀ (ne_of_gt hp)] at h2
    nlinarith
  have hsplit : Real.exp 3.04 = Real.exp 3 * Real.exp 0.04 := by
    rw [← Real.exp_add]
    norm_num
  have h3 := exp_three_bounds.2
  have hpos3 : (0 : ℝ) < Real.exp 3 := Real.exp_pos 3
  calc Real.exp 3.04 = Real.exp 3 * Real.exp 0.04 := hsplit
    _ ≤ Real.exp 3 * (1 / 0.96) := by
        exact mul_le_mul_of_nonneg_left hup hpos3.le
    _ < 2.7182818286 ^ 3 * (1 / 0.96) := by
        exact mul_lt_mul_of_pos_right h3 (by norm_num)
    _ < 21 := by norm_num

/-- Lower bound `20.25 < exp 3.04`, i.e. `exp 3.04 > 4.5²`. -/
theorem exp_304_gt : (20.25 : ℝ) < Real.exp 3.04 := by
  have hlow : (1.04 : ℝ) ≤ Real.exp 0.04 := by
    have h := Real.add_one_le_exp (0.04 : ℝ)
    linarith
  have hsplit : Real.exp 3.04 = Real.exp 3 * Real.exp 0.04 := by
    rw [← Real.exp_add]
    norm_num
  have h3 := exp_three_bounds.1
  calc (20.25 : ℝ) < 2.7182818283 ^ 3 * 1.04 := by norm_num
    _ < Real.exp 3 * 1.04 := mul_lt_mul_of_pos_right h3 (by norm_num)
    _ ≤ Real.exp 3 * Real.exp 0.04 := by
        exact mul_le_mul_of_nonneg_left hlow (Real.exp_pos 3).le
    _ = Real.exp 3.04 := hsplit.symm

/-- Lower bound `4.5 ≤ exp 1.52`: the contrast target of a 500-step
difference meets WCAG AA. -/
theorem exp_152_ge_45 : (4.5 : ℝ) ≤ Real.exp 1.52 := by
  have hsq : Real.exp 1.52 * Real.exp 1.52 = Real.exp 3.04 := by
    rw [← Real.exp_add]
    norm_num
  nlinarith [Real.exp_pos 1.52, exp_304_gt]

/-- The contrast target of any scale position in `[0, 1000]` lies in the
WCAG range `[1, 21]`. -/
theorem scaleToContrast_bounds (s : ℝ) (h0 : 0 ≤ s) (h1 : s ≤ 1000) :
    1 ≤ scaleToContrast s ∧ scaleToContrast s ≤ 21 := by
  unfold scaleToContrast
  constructor
  · exact Real.one_le_exp (by positivity)
  · have h : Real.exp (3.04 * (s / 1000)) ≤ Real.exp 3.04 :=
      Real.exp_le_exp.mpr (by linarith)
    linarith [exp_304_lt_21]

/-- Evaluation of the reverse solver at the fixed reference luminance 1:
for contrasts in `[1, 21]` the light-background branch runs and the clamp is
a no-op, giving `(1 + 0.05)/contrast - 0.05`. -/
theorem reverseWCAGContrast_at_one (c : ℝ) (h1 : 1 ≤ c) (h2 : c ≤ 21) :
    reverseWCAGContrast c 1 = some ((1 + 0.05) / c - 0.05) := by
  have hc : (0 : ℝ) < c := lt_of_lt_of_le one_pos h1
  have hub : (1 + 0.05) / c - 0.05 ≤ 1 := by
    have h : (1 + 0.05) / c ≤ 1.05 := by
      rw [div_le_iff₀ hc]
      nlinarith
    linarith
  have hlb : 0 ≤ (1 + 0.05) / c - 0.05 := by
    have h : (0.05 : ℝ) ≤ (1 + 0.05) / c := by
      rw [le_div_iff₀ hc]
      nlinarith
    linarith
  simp only [reverseWCAGContrast]
  rw [if_neg (by norm_num), if_neg (by push_neg; exact ⟨h1, h2⟩),
    if_pos (by norm_num : (0.18 : ℝ) < 1)]
  rw [min_eq_right hub, max_eq_right hlb]

/-- The target luminance of a valid scale step, in closed form. -/
theorem targetLuminance_eq (step : ℚ) (h0 : 0 ≤ step) (h1 : step ≤ 1000) :
    targetLuminance step
      = some ((1 + 0.05) / scaleToContrast (step : ℝ) - 0.05) := by
  have h0r : (0 : ℝ) ≤ (step : ℝ) := by exact_mod_cast h0
  have h1r : (step : ℝ) ≤ 1000 := by exact_mod_cast h1
  obtain ⟨hb1, hb2⟩ := scaleToContrast_bounds (step : ℝ) h0r h1r
  exact reverseWCAGContrast_at_one _ hb1 hb2

/-- The per-step lightness computation succeeds on every valid step and is
the Okhsl lightness of the closed-form target luminance. -/
theorem computeLightness_eq (step : ℚ) (h0 : 0 ≤ step) (h1 : step ≤ 1000) :
    computeLightness step
      = some (yToOkhslLightness
          ((1 + 0.05) / scaleToContrast (step : ℝ) - 0.05)) := by
  have h := targetLuminance_eq step h0 h1
  simp only [targetLuminance] at h
  simp only [computeLightness, h]

/-- C9: under the validated preconditions of `generateColorScale`, the
luminance-unsolvable branch is unreachable — for every integer step in
`[0, 1000]` the contrast target lies in `[1, 21]`, the reference luminance 1
is valid, so `reverseWCAGContrast` returns a value and `computeLightness`
never throws. -/
theorem C9_lightness_never_fails (step : ℚ) (_hden : step.den = 1)
    (h0 : 0 ≤ step) (h1 : step ≤ 1000) :
    1 ≤ scaleToContrast (step : ℝ)
    ∧ scaleToContrast (step : ℝ) ≤ 21
    ∧ (reverseWCAGContrast (scaleToContrast (step : ℝ)) 1).isSome = true
    ∧ (computeLightness step).isSome = true := by
  have h0r : (0 : ℝ) ≤ (step : ℝ) := by exact_mod_cast h0
  have h1r : (step : ℝ) ≤ 1000 := by exact_mod_cast h1
  obtain ⟨hb1, hb2⟩ := scaleToContrast_bounds (step : ℝ) h0r h1r
  refine ⟨hb1, hb2, ?_, ?_⟩
  · rw [reverseWCAGContrast_at_one _ hb1 hb2]
    rfl
  · rw [computeLightness_eq step h0 h1]
    rfl

/-- Witness for C9 at the concrete step 500. -/
theorem C9_lightness_never_fails_witness :
    1 ≤ scaleToContrast ((500 : ℚ) : ℝ)
    ∧ scaleToContrast ((500 : ℚ) : ℝ) ≤ 21
    ∧ (reverseWCAGContrast (scaleToContrast ((500 : ℚ) : ℝ)) 1).isSome = true
    ∧ (computeLightness 500).isSome = true :=
  C9_lightness_never_fails 500 (by norm_num) (by norm_num) (by norm_num)

/-- C1: for any two valid scale steps at least 500 apart, the reference
model's WCAG contrast is at least 4.5. The target contrast of the step
difference, `scaleToContrast (b - a) = exp (3.04 * (b - a) / 1000)`, is at
least 4.5, and the WCAG contrast ratio between the target luminances that
`generateColorScale`'s per-step pipeline assigns to the two steps (through
`computeLightness`) is also at least 4.5. -/
theorem C1_aa_guarantee (a b : ℚ) (ya yb : ℝ)
    (h0 : 0 ≤ a) (h1 : b ≤ 1000) (hab : a + 500 ≤ b)
    (hya : targetLuminance a = some ya) (hyb : targetLuminance b = some yb) :
    4.5 ≤ scaleToContrast ((b : ℝ) - (a : ℝ))
    ∧ 4.5 ≤ wcagContrastValue ya yb := by
  have ha1000 : a ≤ 1000 := by linarith
  have hb0 : (0 : ℚ) ≤ b := by linarith
  have h0r : (0 : ℝ) ≤ (a : ℝ) := by exact_mod_cast h0
  have h1r : (b : ℝ) ≤ 1000 := by exact_mod_cast h1
  have habr : (a : ℝ) + 500 ≤ (b : ℝ) := by exact_mod_cast hab
  have hform : ∀ x : ℝ, scaleToContrast x = Real.exp (3.04 * (x / 1000)) :=
    fun x => rfl
  have hya2 : ya = (1 + 0.05) / scaleToContrast (a : ℝ) - 0.05 :=
    Option.some.inj (hya.symm.trans (targetLuminance_eq a h0 ha1000))
  have hyb2 : yb = (1 + 0.05) / scaleToContrast (b : ℝ) - 0.05 :=
    Option.some.inj (hyb.symm.trans (targetLuminance_eq b hb0 h1))
  have hcapos : (0 : ℝ) < scaleToContrast (a : ℝ) := by
    rw [hform]
    positivity
  have hcbpos : (0 : ℝ) < scaleToContrast (b : ℝ) := by
    rw [hform]
    positivity
  have hkey : (4.5 : ℝ) ≤ scaleToContrast ((b : ℝ) - (a : ℝ)) := by
    rw [hform]
    calc (4.5 : ℝ) ≤ Real.exp 1.52 := exp_152_ge_45
      _ ≤ Real.exp (3.04 * (((b : ℝ) - (a : ℝ)) / 1000)) :=
        Real.exp_le_exp.mpr (by linarith)
  refine ⟨hkey, ?_⟩
  have hmono : scaleToContrast (a : ℝ) ≤ scaleToContrast (b : ℝ) := by
    rw [hform, hform]
    exact Real.exp_le_exp.mpr (by linarith)
  have horder : yb ≤ ya := by
    rw [hya2, hyb2]
    have hd : (1 + 0.05) / scaleToContrast (b : ℝ)
        ≤ (1 + 0.05) / scaleToContrast (a : ℝ) := by
      rw [div_le_div_iff₀ hcbpos hcapos]
      nlinarith
    linarith
  have hprod : scaleToContrast (b : ℝ)
      = scaleToContrast (a : ℝ) * scaleToContrast ((b : ℝ) - (a : ℝ)) := by
    rw [hform, hform, hform, ← Real.exp_add]
    congr 1
    ring
  simp only [wcagContrastValue]
  rw [max_eq_left horder, min_eq_right horder, hya2, hyb2]
  have heq : ((1 + 0.05) / scaleToContrast (a : ℝ) - 0.05 + 0.05)
      / ((1 + 0.05) / scaleToContrast (b : ℝ) - 0.05 + 0.05)
      = scaleToContrast (b : ℝ) / scaleToContrast (a : ℝ) := by
    have e1 : (1 + 0.05) / scaleToContrast (a : ℝ) - 0.05 + 0.05
        = (1 + 0.05) / scaleToContrast (a : ℝ) := by ring
    have e2 : (1 + 0.05) / scaleToContrast (b : ℝ) - 0.05 + 0.05
        = (1 + 0.05) / scaleToContrast (b : ℝ) := by ring
    rw [e1, e2]
    rw [div_div_div_eq]
    rw [mul_comm (1 + 0.05) (scaleToContrast (b : ℝ))]
    rw [mul_div_mul_right _ _ (by norm_num : (1 + 0.05 : ℝ) ≠ 0)]
  rw [heq, hprod, mul_comm, mul_div_assoc, div_self (ne_of_gt hcapos), mul_one]
  exact hkey

/-- Witness for C1 at the concrete steps `a = 0`, `b = 500`. -/
theorem C1_aa_guarantee_witness :
    4.5 ≤ scaleToContrast (((500 : ℚ) : ℝ) - ((0 : ℚ) : ℝ))
    ∧ 4.5 ≤ wcagContrastValue
        ((1 + 0.05) / scaleToContrast ((0 : ℚ) : ℝ) - 0.05)
        ((1 + 0.05) / scaleToContrast ((500 : ℚ) : ℝ) - 0.05) :=
  C1_aa_guarantee 0 500 _ _ (by norm_num) (by norm_num) (by norm_num)
    (targetLuminance_eq 0 (by norm_num) (by norm_num))
    (targetLuminance_eq 500 (by norm_num) (by norm_num))

/-- C6: `generateColorScale` rejects invalid options before any per-step
work: whenever `baseHue` is outside `[0, 360]`, a chroma bound is outside
`[0, 1]`, `minChroma > maxChroma`, or some step is negative, above 1000 or
not an integer, the call returns an `InvalidOptions`-style error and
produces no output (in particular for `baseHue = 361`, for
`minChroma = 0.6, maxChroma = 0.3`, and for `steps = [500.5]`). -/
theorem C6_invalid_options_rejected (conv : ℝ × ℝ × ℝ → ℝ × ℝ × ℝ)
    (options : GenerateColorScaleOptions)
    (h : options.baseHue < 0 ∨ 360 < options.baseHue
      ∨ options.minChroma < 0 ∨ 1 < options.minChroma
      ∨ options.maxChroma < 0 ∨ 1 < options.maxChroma
      ∨ options.maxChroma < options.minChroma
      ∨ ∃ step ∈ options.steps, step < 0 ∨ 1000 < step ∨ step.den ≠ 1) :
    ∃ msg, generateColorScale conv options = .error msg := by
  simp only [generateColorScale]
  by_cases h1 : options.baseHue < 0 ∨ 360 < options.baseHue
  · rw [if_pos h1]
    exact ⟨_, rfl⟩
  rw [if_neg h1]
  by_cases h2 : options.minChroma < 0 ∨ 1 < options.minChroma
      ∨ options.maxChroma < 0 ∨ 1 < options.maxChroma
  · rw [if_pos h2]
    exact ⟨_, rfl⟩
  rw [if_neg h2]
  by_cases h3 : options.maxChroma < options.minChroma
  · rw [if_pos h3]
    exact ⟨_, rfl⟩
  rw [if_neg h3]
  have h4 : (options.steps.any fun step =>
      decide (step < 0) || decide (1000 < step) || decide (step.den ≠ 1)) = true := by
    push_neg at h1 h2 h3
    obtain hv | hv | hv | hv | hv | hv | hv | ⟨st, hmem, hst⟩ := h
    · exact absurd hv (not_lt.mpr h1.1)
    · exact absurd hv (not_lt.mpr h1.2)
    · exact absurd hv (not_lt.mpr h2.1)
    · exact absurd hv (not_lt.mpr h2.2.1)
    · exact absurd hv (not_lt.mpr h2.2.2.1)
    · exact absurd hv (not_lt.mpr h2.2.2.2)
    · exact absurd hv (not_lt.mpr h3)
    · rw [List.any_eq_true]
      refine ⟨st, hmem, ?_⟩
      simp only [Bool.or_eq_true, decide_eq_true_eq]
      tauto
  rw [if_pos h4]
  exact ⟨_, rfl⟩

/-- Witness for C6 at the concrete invalid input `baseHue = 361`. -/
theorem C6_invalid_options_rejected_witness :
    ∃ msg, generateColorScale (fun c => c)
      { baseHue := 361, minChroma := 0, maxChroma := 0, steps := [0],
        enableBezoldBruckeShift := true } = .error msg :=
  C6_invalid_options_rejected _ _ (Or.inr (Or.inl (by norm_num)))

/-- Under the validated preconditions, every per-step pipeline run
succeeds: hue, chroma and lightness all return values, so `stepColor`
produces a color. -/
theorem stepColor_isSome (conv : ℝ × ℝ × ℝ → ℝ × ℝ × ℝ)
    (step baseHue minChroma maxChroma : ℚ) (shift : Bool)
    (h0 : 0 ≤ step) (h1 : step ≤ 1000) (hb0 : 0 ≤ baseHue) (hb1 : baseHue ≤ 360)
    (hm0 : 0 ≤ minChroma) (hm1 : minChroma ≤ maxChroma) (hm2 : maxChroma ≤ 1) :
    (stepColor conv step baseHue minChroma maxChroma shift).isSome = true := by
  simp only [stepColor, computeHue_eq step baseHue shift h0 h1 hb0 hb1,
    computeChroma_eq step minChroma maxChroma h0 h1 hm0 hm1 hm2,
    computeLightness_eq step h0 h1, Option.isSome_some]

/-- The reduce loop maps each step to its color when every per-step
computation succeeds. -/
theorem buildScale_eq (f : ℚ → Option (ℝ × ℝ × ℝ)) (l : List ℚ)
    (h : ∀ st ∈ l, (f st).isSome = true) :
    buildScale f l = .ok (l.map fun st => (st, (f st).getD (0, 0, 0))) := by
  induction l with
  | nil => rfl
  | cons a t ih =>
    have ha := h a (List.mem_cons_self a t)
    obtain ⟨c, hc⟩ := Option.isSome_iff_exists.mp ha
    have ht := ih fun st hst => h st (List.mem_cons_of_mem a hst)
    simp only [buildScale, hc, ht, List.map_cons, Option.getD_some]

/-- C4: for valid options, `generateColorScale` is exactly the pointwise map
of the per-step pipeline over the requested steps: the keys of the result
are exactly the requested steps, and the color of each step is
`stepColor conv step baseHue minChroma maxChroma enableBezoldBruckeShift`,
a function of the step and the four scalar options alone — independent of
which other steps appear in `steps`, so two calls whose step lists both
contain a step assign it the same color. -/
theorem C4_pointwise_map (conv : ℝ × ℝ × ℝ → ℝ × ℝ × ℝ)
    (options : GenerateColorScaleOptions)
    (hb0 : 0 ≤ options.baseHue) (hb1 : options.baseHue ≤ 360)
    (hm0 : 0 ≤ options.minChroma) (hm1 : options.minChroma ≤ options.maxChroma)
    (hm2 : options.maxChroma ≤ 1)
    (hsteps : ∀ step ∈ options.steps, 0 ≤ step ∧ step ≤ 1000 ∧ step.den = 1) :
    generateColorScale conv options
      = .ok (options.steps.map fun step =>
          (step, (stepColor conv step options.baseHue options.minChroma
              options.maxChroma options.enableBezoldBruckeShift).getD (0, 0, 0))) := by
  simp only [generateColorScale]
  rw [if_neg (by push_neg; exact ⟨hb0, hb1⟩),
    if_neg (by push_neg; exact ⟨hm0, by linarith, by linarith, hm2⟩),
    if_neg (not_lt.mpr hm1)]
  have hany : ¬((options.steps.any fun step =>
      decide (step < 0) || decide (1000 < step) || decide (step.den ≠ 1)) = true) := by
    intro hcon
    rw [List.any_eq_true] at hcon
    obtain ⟨st, hmem, hst⟩ := hcon
    simp only [Bool.or_eq_true, decide_eq_true_eq] at hst
    obtain ⟨hs0, hs1, hsden⟩ := hsteps st hmem
    rcases hst with (hv | hv) | hv
    · linarith
    · linarith
    · exact hv hsden
  rw [if_neg hany]
  apply buildScale_eq
  intro st hst
  obtain ⟨hs0, hs1, _⟩ := hsteps st hst
  exact stepColor_isSome conv st options.baseHue options.minChroma
    options.maxChroma options.enableBezoldBruckeShift hs0 hs1 hb0 hb1 hm0 hm1 hm2

/-- Witness for C4 at the concrete options `baseHue = 0`, `minChroma = 0`,
`maxChroma = 0`, `steps = [0]`. -/
theorem C4_pointwise_map_witness :
    generateColorScale (fun c => c)
        { baseHue := 0, minChroma := 0, maxChroma := 0, steps := [0],
          enableBezoldBruckeShift := true }
      = .ok (([0] : List ℚ).map fun step =>
          (step, (stepColor (fun c => c) step 0 0 0 true).getD (0, 0, 0))) :=
  C4_pointwise_map _ _ le_rfl (by norm_num) le_rfl le_rfl (by norm_num)
    (by
      intro st hst
      rw [List.mem_singleton] at hst
      subst hst
      exact ⟨le_rfl, by norm_num, rfl⟩)

/-- The cube root of a nonnegative real is nonnegative. -/
theorem cbrt_nonneg (x : ℝ) (hx : 0 ≤ x) : 0 ≤ cbrt x :=
  Real.rpow_nonneg hx _

/-- The cube root of a cube: `cbrt (y³) = y` for nonnegative `y`. -/
theorem cbrt_cube (y : ℝ) (hy : 0 ≤ y) : cbrt (y ^ 3) = y := by
  unfold cbrt
  have hcast : ((3 : ℕ) : ℝ)⁻¹ = (1 : ℝ) / 3 := by norm_num
  rw [← hcast]
  exact Real.pow_rpow_inv_natCast hy (by norm_num)

/-- Upper bound for a cube root from an upper bound on the cube. -/
theorem cbrt_le_of_le_cube (x y : ℝ) (hx : 0 ≤ x) (hy : 0 ≤ y)
    (h : x ≤ y ^ 3) : cbrt x ≤ y := by
  have h1 : cbrt x ≤ cbrt (y ^ 3) := Real.rpow_le_rpow hx h (by norm_num)
  rwa [cbrt_cube y hy] at h1

/-- Lower bound for a cube root from a lower bound on the cube. -/
theorem le_cbrt_of_cube_le (x y : ℝ) (hy : 0 ≤ y) (h : y ^ 3 ≤ x) :
    y ≤ cbrt x := by
  have h1 : cbrt (y ^ 3) ≤ cbrt x := Real.rpow_le_rpow (by positivity) h (by norm_num)
  rwa [cbrt_cube y hy] at h1

/-- The cube root is multiplicative on nonnegative reals. -/
theorem cbrt_mul (x y : ℝ) (hx : 0 ≤ x) (hy : 0 ≤ y) :
    cbrt (x * y) = cbrt x * cbrt y :=
  Real.mul_rpow hx hy

/-- The toe correction vanishes at 0. -/
theorem toe_zero : toe 0 = 0 := by
  simp only [toe]
  have harg : ((1 + 0.206) / (1 + 0.03) * (0 : ℝ) - 0.206)
        * ((1 + 0.206) / (1 + 0.03) * (0 : ℝ) - 0.206)
      + 4 * 0.03 * ((1 + 0.206) / (1 + 0.03)) * (0 : ℝ) = 0.206 ^ 2 := by
    norm_num
  rw [harg, Real.sqrt_sq (by norm_num)]
  norm_num

/-- The toe correction fixes 1. -/
theorem toe_one : toe 1 = 1 := by
  simp only [toe]
  have harg : ((1 + 0.206) / (1 + 0.03) * (1 : ℝ) - 0.206)
        * ((1 + 0.206) / (1 + 0.03) * (1 : ℝ) - 0.206)
      + 4 * 0.03 * ((1 + 0.206) / (1 + 0.03)) * (1 : ℝ)
      = (2 - ((1 + 0.206) / (1 + 0.03) * (1 : ℝ) - 0.206)) ^ 2 := by
    norm_num
  rw [harg, Real.sqrt_sq (by norm_num)]
  norm_num

/-- The toe correction maps `[0, 1]` into `[0, 1]`. -/
theorem toe_bounds (L : ℝ) (h0 : 0 ≤ L) (h1 : L ≤ 1) :
    0 ≤ toe L ∧ toe L ≤ 1 := by
  simp only [toe]
  set k3 : ℝ := (1 + 0.206) / (1 + 0.03) with hk3
  set t : ℝ := k3 * L - 0.206 with ht
  clear_value k3 t
  have hc : (0 : ℝ) ≤ 4 * 0.03 * k3 := by
    rw [hk3]
    norm_num
  constructor
  · have hs : Real.sqrt (t * t) ≤ Real.sqrt (t * t + 4 * 0.03 * k3 * L) := by
      apply Real.sqrt_le_sqrt
      have := mul_nonneg hc h0
      linarith
    have habs : Real.sqrt (t * t) = |t| := Real.sqrt_mul_self_eq_abs t
    rw [habs] at hs
    have hneg := neg_abs_le t
    linarith
  · have h2t : t ≤ 2 := by
      rw [ht, hk3]
      nlinarith
    have hsq : t * t + 4 * 0.03 * k3 * L ≤ (2 - t) ^ 2 := by
      rw [ht, hk3]
      nlinarith
    have hs : Real.sqrt (t * t + 4 * 0.03 * k3 * L) ≤ 2 - t := by
      rw [show (2 - t : ℝ) = Real.sqrt ((2 - t) ^ 2) from
        (Real.sqrt_sq (by linarith)).symm]
      exact Real.sqrt_le_sqrt hsq
    linarith

/-- The Oklab lightness of a luminance in `[0, 1]` lies in `[0, 1]`. -/
theorem yToOklabLightness_bounds (Y : ℝ) (h0 : 0 ≤ Y) (h1 : Y ≤ 1) :
    0 ≤ yToOklabLightness Y ∧ yToOklabLightness Y ≤ 1 := by
  have hl : 0.8189330101 * (0.3127 / 0.329 * Y) + 0.3618667424 * Y
      - 0.1288597137 * ((1 - 0.3127 - 0.329) / 0.329 * Y)
      = (0.8189330101 * (0.3127 / 0.329) + 0.3618667424
        - 0.1288597137 * ((1 - 0.3127 - 0.329) / 0.329)) * Y := by ring
  have hm : 0.0329845436 * (0.3127 / 0.329 * Y) + 0.9293118715 * Y
      + 0.0361456387 * ((1 - 0.3127 - 0.329) / 0.329 * Y)
      = (0.0329845436 * (0.3127 / 0.329) + 0.9293118715
        + 0.0361456387 * ((1 - 0.3127 - 0.329) / 0.329)) * Y := by ring
  have hsv : 0.0482003018 * (0.3127 / 0.329 * Y) + 0.2643662691 * Y
      + 0.633851707 * ((1 - 0.3127 - 0.329) / 0.329 * Y)
      = (0.0482003018 * (0.3127 / 0.329) + 0.2643662691
        + 0.633851707 * ((1 - 0.3127 - 0.329) / 0.329)) * Y := by ring
  have hrw : yToOklabLightness Y
      = 0.2104542553 * cbrt (max 0 ((0.8189330101 * (0.3127 / 0.329) + 0.3618667424
            - 0.1288597137 * ((1 - 0.3127 - 0.329) / 0.329)) * Y))
        + 0.793617785 * cbrt (max 0 ((0.0329845436 * (0.3127 / 0.329) + 0.9293118715
            + 0.0361456387 * ((1 - 0.3127 - 0.329) / 0.329)) * Y))
        - 0.0040720468 * cbrt (max 0 ((0.0482003018 * (0.3127 / 0.329) + 0.2643662691
            + 0.633851707 * ((1 - 0.3127 - 0.329) / 0.329)) * Y)) := by
    simp only [yToOklabLightness]
    rw [hl, hm, hsv]
  have hclpos : (0 : ℝ) ≤ 0.8189330101 * (0.3127 / 0.329) + 0.3618667424
      - 0.1288597137 * ((1 - 0.3127 - 0.329) / 0.329) := by norm_num
  have hcl3 : 0.8189330101 * (0.3127 / 0.329) + 0.3618667424
      - 0.1288597137 * ((1 - 0.3127 - 0.329) / 0.329) ≤ (0.999964 : ℝ) ^ 3 := by norm_num
  have hcm1 : (1 : ℝ) ≤ 0.0329845436 * (0.3127 / 0.329) + 0.9293118715
      + 0.0361456387 * ((1 - 0.3127 - 0.329) / 0.329) := by norm_num
  have hcm3 : 0.0329845436 * (0.3127 / 0.329) + 0.9293118715
      + 0.0361456387 * ((1 - 0.3127 - 0.329) / 0.329) ≤ (1.000009 : ℝ) ^ 3 := by norm_num
  have hcs1 : (1 : ℝ) ≤ 0.0482003018 * (0.3127 / 0.329) + 0.2643662691
      + 0.633851707 * ((1 - 0.3127 - 0.329) / 0.329) := by norm_num
  have hcs3 : 0.0482003018 * (0.3127 / 0.329) + 0.2643662691
      + 0.633851707 * ((1 - 0.3127 - 0.329) / 0.329) ≤ (1.001 : ℝ) ^ 3 := by norm_num
  have hcm0 : (0 : ℝ) ≤ 0.0329845436 * (0.3127 / 0.329) + 0.9293118715
      + 0.0361456387 * ((1 - 0.3127 - 0.329) / 0.329) := le_trans zero_le_one hcm1
  have hcs0 : (0 : ℝ) ≤ 0.0482003018 * (0.3127 / 0.329) + 0.2643662691
      + 0.633851707 * ((1 - 0.3127 - 0.329) / 0.329) := le_trans zero_le_one hcs1
  rw [hrw, max_eq_right (mul_nonneg hclpos h0), max_eq_right (mul_nonneg hcm0 h0),
    max_eq_right (mul_nonneg hcs0 h0), cbrt_mul _ _ hclpos h0,
    cbrt_mul _ _ hcm0 h0, cbrt_mul _ _ hcs0 h0]
  have hYc0 : 0 ≤ cbrt Y := cbrt_nonneg Y h0
  have hYc1 : cbrt Y ≤ 1 := Real.rpow_le_one h0 h1 (by norm_num)
  have hA0 : 0 ≤ cbrt (0.8189330101 * (0.3127 / 0.329) + 0.3618667424
      - 0.1288597137 * ((1 - 0.3127 - 0.329) / 0.329)) := cbrt_nonneg _ hclpos
  have hA1 : cbrt (0.8189330101 * (0.3127 / 0.329) + 0.3618667424
      - 0.1288597137 * ((1 - 0.3127 - 0.329) / 0.329)) ≤ 0.999964 :=
    cbrt_le_of_le_cube _ _ hclpos (by norm_num) hcl3
  have hB0 : 1 ≤ cbrt (0.0329845436 * (0.3127 / 0.329) + 0.9293118715
      + 0.0361456387 * ((1 - 0.3127 - 0.329) / 0.329)) :=
    le_cbrt_of_cube_le _ _ (by norm_num) (by simpa using hcm1)
  have hB1 : cbrt (0.0329845436 * (0.3127 / 0.329) + 0.9293118715
      + 0.0361456387 * ((1 - 0.3127 - 0.329) / 0.329)) ≤ 1.000009 :=
    cbrt_le_of_le_cube _ _ hcm0 (by norm_num) hcm3
  have hC0 : 1 ≤ cbrt (0.0482003018 * (0.3127 / 0.329) + 0.2643662691
      + 0.633851707 * ((1 - 0.3127 - 0.329) / 0.329)) :=
    le_cbrt_of_cube_le _ _ (by norm_num) (by simpa using hcs1)
  have hC1 : cbrt (0.0482003018 * (0.3127 / 0.329) + 0.2643662691
      + 0.633851707 * ((1 - 0.3127 - 0.329) / 0.329)) ≤ 1.001 :=
    cbrt_le_of_le_cube _ _ hcs0 (by norm_num) hcs3
  constructor
  · have p1 := mul_nonneg hA0 hYc0
    have p2 := mul_le_mul_of_nonneg_right hB0 hYc0
    have p3 := mul_le_mul_of_nonneg_right hC1 hYc0
    linarith
  · have q1 := mul_le_mul_of_nonneg_right hA1 hYc0
    have q2 := mul_le_mul_of_nonneg_right hB1 hYc0
    have q3 := mul_le_mul_of_nonneg_right hC0 hYc0
    linarith

/-- C10: for every luminance in `[0, 1]`, the Oklab lightness lies in
`[0, 1]` (the LMS cone responses being clamped to be nonnegative before the
cube root, as the definition of `yToOklabLightness` does), the toe
correction fixes the endpoints (`toe 0 = 0`, `toe 1 = 1`), and the final
Okhsl lightness `toe (yToOklabLightness Y)` lies in `[0, 1]`. -/
theorem C10_okhsl_lightness_range (Y : ℝ) (h0 : 0 ≤ Y) (h1 : Y ≤ 1) :
    (0 ≤ yToOklabLightness Y ∧ yToOklabLightness Y ≤ 1)
    ∧ toe 0 = 0 ∧ toe 1 = 1
    ∧ (0 ≤ yToOkhslLightness Y ∧ yToOkhslLightness Y ≤ 1) := by
  have hox := yToOklabLightness_bounds Y h0 h1
  refine ⟨hox, toe_zero, toe_one, ?_⟩
  have ht := toe_bounds (yToOklabLightness Y) hox.1 hox.2
  simpa [yToOkhslLightness] using ht

/-- Witness for C10 at the concrete luminance `Y = 1`. -/
theorem C10_okhsl_lightness_range_witness :
    (0 ≤ yToOklabLightness 1 ∧ yToOklabLightness 1 ≤ 1)
    ∧ toe 0 = 0 ∧ toe 1 = 1
    ∧ (0 ≤ yToOkhslLightness 1 ∧ yToOkhslLightness 1 ≤ 1) :=
  C10_okhsl_lightness_range 1 (by norm_num) le_rfl
